import Mathlib

/-!
Shallow embedding of the MCPF example workflows.

Sources embedded here:
- `src/banking/fraud-detection/index.ts` : `detectFraud`, `calculateRiskScore`,
  `generateReasoning` and the decision mapping.
- `src/customer-service/escalation/index.js` : `handleCustomerQuery`,
  `simulateL1Response`, `simulateSupervisorResponse`.

Modelling conventions:
- JavaScript numbers are modelled as exact rationals (`ℚ`).  Every reachable
  score in the code is a sum drawn from the subsets of
  \x7b0.3, 0.2, 0.2, 0.3\x7d added in a fixed order; each such IEEE-754 double sum
  compares to the literals 0.3, 0.5 and 0.8 exactly as the rational sum does,
  so the rational model is behaviourally faithful for every comparison the
  code performs.
- Calls into the external `mcpf-typescript` client (`ans.resolve`,
  `did.verifyAgent`, `a2a.checkDelegation`) are modelled as fields of an
  explicit environment record, and each call is also recorded in an event
  trace so that ordering/absence-of-call properties can be stated.
- `throw new Error(msg)` is modelled as `Except.error msg`.
- Missing metadata fields (`undefined` in JS) are modelled with `Option`;
  `x || 0` becomes `Option.getD 0` (note `0 || 0 = 0` in JS as well), and
  `undefined > 5` is `false`, matching the `Option` match used below.
-/

namespace MCPFExamples

/-- Identity returned by the ANS name resolver; the examples only ever read
the `did` field of the resolved object. -/
structure AgentIdentity where
  did : String
deriving Repr, DecidableEq

/-- Policy object carried by an allowed delegation decision; the examples
only read its `id`. -/
structure DelegationPolicy where
  id : String
deriving Repr, DecidableEq

/-- Result of `mcpf.a2a.checkDelegation`. -/
structure DelegationDecision where
  allowed : Bool
  reason : String
  policy : Option DelegationPolicy
deriving Repr, DecidableEq

/-- One observable call to an external MCPF collaborator. -/
inductive Event where
  | resolveAgent (name : String)
  | verifyAgent (did : String)
  | delegationCheck (fromDid toDid action : String)
deriving Repr, DecidableEq

/-- `Transaction.metadata` as used by the banking example: only
`recentTxCount` and `toCountry` are ever read. -/
structure Metadata where
  recentTxCount : Option ℚ
  toCountry : Option String
deriving Repr, DecidableEq

/-- The `Transaction` interface of `src/banking/fraud-detection/index.ts`. -/
structure Transaction where
  id : String
  amount : ℚ
  currency : String
  fromAccount : String
  toAccount : String
  timestamp : String
  metadata : Metadata
deriving Repr, DecidableEq

/-- The decision union type `'ALLOW' | 'BLOCK' | 'REVIEW'`. -/
inductive Decision where
  | ALLOW
  | BLOCK
  | REVIEW
deriving Repr, DecidableEq

/-- The `FraudDetectionResult` interface. -/
structure FraudDetectionResult where
  transactionId : String
  fraudDetectorDid : String
  riskAnalyzerDid : String
  policyId : String
  riskScore : ℚ
  decision : Decision
  reasoning : List String
  timestamp : String
deriving Repr, DecidableEq

/-- `calculateRiskScore` from `src/banking/fraud-detection/index.ts`:
starts at 0, adds 0.3 if `amount > 10000`, 0.2 if `amount > 50000`,
0.2 if `metadata.recentTxCount || 0` exceeds 5, 0.3 if
`metadata.toCountry === 'XX'`, and returns `Math.min(score, 1.0)`. -/
def calculateRiskScore (tx : Transaction) : ℚ :=
  let score : ℚ := 0
  let score := if tx.amount > 10000 then score + 0.3 else score
  let score := if tx.amount > 50000 then score + 0.2 else score
  let recentTxCount := tx.metadata.recentTxCount.getD 0
  let score := if recentTxCount > 5 then score + 0.2 else score
  let isHighRiskCountry := tx.metadata.toCountry = some "XX"
  let score := if isHighRiskCountry then score + 0.3 else score
  min score 1

/-- The JS test `tx.metadata.recentTxCount > 5` as it appears in
`generateReasoning` (no `|| 0` default there; `undefined > 5` is `false`). -/
def recentTxCountOver5 (o : Option ℚ) : Bool :=
  match o with
  | some n => decide (n > 5)
  | none => false

/-- `generateReasoning` from `src/banking/fraud-detection/index.ts`:
pushes, in order, the high-amount, high-velocity and high-risk-country
strings for each triggered condition, and then additionally pushes
"Normal transaction pattern" whenever the passed score is below 0.3. -/
def generateReasoning (tx : Transaction) (score : ℚ) : List String :=
  let reasons : List String := []
  let reasons := if tx.amount > 10000 then reasons ++ ["High transaction amount"] else reasons
  let reasons := if recentTxCountOver5 tx.metadata.recentTxCount then
      reasons ++ ["High transaction velocity"] else reasons
  let reasons := if tx.metadata.toCountry = some "XX" then
      reasons ++ ["High-risk destination country"] else reasons
  let reasons := if score < 0.3 then reasons ++ ["Normal transaction pattern"] else reasons
  reasons

/-- The inline decision mapping of `detectFraud`:
`riskScore > 0.8 ? 'BLOCK' : riskScore > 0.5 ? 'REVIEW' : 'ALLOW'`. -/
def decisionFor (riskScore : ℚ) : Decision :=
  if riskScore > 0.8 then Decision.BLOCK
  else if riskScore > 0.5 then Decision.REVIEW
  else Decision.ALLOW

/-- Collaborator environment for the banking workflow: the ANS resolver,
the credential verifier, the delegation checker, and the wall clock read by
`new Date().toISOString()` when the result is assembled. -/
structure FraudEnv where
  resolve : String → Except String AgentIdentity
  verifyAgent : String → Bool
  checkDelegation : String → String → String → DelegationDecision
  now : String

def fraudDetectorName : String := "fraud-detector.risk.bank.example.agent"

def riskAnalyzerName : String := "risk-analyzer.analytics.bank.example.agent"

/-- `detectFraud` from `src/banking/fraud-detection/index.ts`, returning the
outcome together with the trace of external collaborator calls in program
order.  A thrown `Error` is an `Except.error` carrying the message. -/
def detectFraud (env : FraudEnv) (tx : Transaction) :
    Except String FraudDetectionResult × List Event :=
  match env.resolve fraudDetectorName with
  | .error e => (.error e, [Event.resolveAgent fraudDetectorName])
  | .ok fraudDetector =>
  match env.resolve riskAnalyzerName with
  | .error e => (.error e,
      [Event.resolveAgent fraudDetectorName, Event.resolveAgent riskAnalyzerName])
  | .ok riskAnalyzer =>
    let detectorValid := env.verifyAgent fraudDetector.did
    let analyzerValid := env.verifyAgent riskAnalyzer.did
    let trace := [Event.resolveAgent fraudDetectorName, Event.resolveAgent riskAnalyzerName,
                  Event.verifyAgent fraudDetector.did, Event.verifyAgent riskAnalyzer.did]
    if !detectorValid || !analyzerValid then
      (.error "Agent credential verification failed", trace)
    else
      let delegation := env.checkDelegation fraudDetector.did riskAnalyzer.did "analyze-transaction"
      let trace := trace ++
        [Event.delegationCheck fraudDetector.did riskAnalyzer.did "analyze-transaction"]
      if !delegation.allowed then
        (.error ("Delegation denied: " ++ delegation.reason), trace)
      else
        match delegation.policy with
        | none => (.error "TypeError: delegation.policy is undefined", trace)
        | some policy =>
          let riskScore := calculateRiskScore tx
          let reasoning := generateReasoning tx riskScore
          let decision := decisionFor riskScore
          (.ok { transactionId := tx.id
                 fraudDetectorDid := fraudDetector.did
                 riskAnalyzerDid := riskAnalyzer.did
                 policyId := policy.id
                 riskScore := riskScore
                 decision := decision
                 reasoning := reasoning
                 timestamp := env.now }, trace)

/-- Chatbot / supervisor response records of the escalation example. -/
structure AgentResponse where
  message : String
  confidence : ℚ
deriving Repr, DecidableEq

/-- The customer query record of the escalation example. -/
structure Query where
  customerId : String
  message : String
  severity : String
deriving Repr, DecidableEq

/-- Result of `handleCustomerQuery`: the escalated shape carries a
`policyId`, the resolved-at-L1 shape does not. -/
structure QueryResult where
  status : String
  response : AgentResponse
  policyId : Option String
deriving Repr, DecidableEq

/-- `simulateL1Response` from `src/customer-service/escalation/index.js`. -/
def simulateL1Response (query : Query) : AgentResponse :=
  { message := "I can help with that!"
    confidence := if query.severity = "high" then 0.5 else 0.9 }

/-- `simulateSupervisorResponse` from `src/customer-service/escalation/index.js`. -/
def simulateSupervisorResponse (_query : Query) : AgentResponse :=
  { message := "Supervisor: I\x27ll handle this personally."
    confidence := 0.95 }

/-- Collaborator environment for the escalation workflow.  The MCPF client
object used there also offers the credential verifier; `handleCustomerQuery`
never calls it, and carrying it in the environment lets that be stated. -/
structure EscalationEnv where
  resolve : String → Except String AgentIdentity
  verifyAgent : String → Bool
  checkDelegation : String → String → String → DelegationDecision

def chatbotL1Name : String := "chatbot-l1.support.company.example.agent"

def supervisorAIName : String := "supervisor-ai.management.company.example.agent"

/-- `handleCustomerQuery`, generalized over the two local responder stubs so
that properties about arbitrary deterministic collaborator responses can be
stated; `handleCustomerQuery` below instantiates the stubs from the file.
When the escalation condition holds but the delegation is not allowed,
control falls through to the final `return { status: 'resolved_l1', ... }`
statement, exactly as in the source. -/
def handleCustomerQueryWith (env : EscalationEnv) (l1 : Query → AgentResponse)
    (supervisor : Query → AgentResponse) (query : Query) :
    Except String QueryResult × List Event :=
  match env.resolve chatbotL1Name with
  | .error e => (.error e, [Event.resolveAgent chatbotL1Name])
  | .ok chatbotL1 =>
  match env.resolve supervisorAIName with
  | .error e => (.error e,
      [Event.resolveAgent chatbotL1Name, Event.resolveAgent supervisorAIName])
  | .ok supervisorAI =>
    let l1Response := l1 query
    let trace := [Event.resolveAgent chatbotL1Name, Event.resolveAgent supervisorAIName]
    if l1Response.confidence < 0.8 ∨ query.severity = "high" then
      let delegation := env.checkDelegation chatbotL1.did supervisorAI.did "escalate"
      let trace := trace ++ [Event.delegationCheck chatbotL1.did supervisorAI.did "escalate"]
      if delegation.allowed then
        match delegation.policy with
        | none => (.error "TypeError: delegation.policy is undefined", trace)
        | some policy =>
          let supervisorResponse := supervisor query
          (.ok { status := "escalated"
                 response := supervisorResponse
                 policyId := some policy.id }, trace)
      else
        (.ok { status := "resolved_l1", response := l1Response, policyId := none }, trace)
    else
      (.ok { status := "resolved_l1", response := l1Response, policyId := none }, trace)

/-- `handleCustomerQuery` from `src/customer-service/escalation/index.js`,
with the in-file responder stubs. -/
def handleCustomerQuery (env : EscalationEnv) (query : Query) :
    Except String QueryResult × List Event :=
  handleCustomerQueryWith env simulateL1Response simulateSupervisorResponse query

/-- Reference fraud score following the spec text (§4, "Domain computation —
fraud scoring"): start at 0.0; add 0.3 if amount > 10,000; add an additional
0.2 if amount > 50,000; add 0.2 if the supplied recent-transaction-count
metadata field exceeds 5; add 0.3 if the destination-country metadata field
equals the high-risk sentinel; clamp the final score to the closed interval
[0.0, 1.0].  Stated separately from `calculateRiskScore` so that the two can
be compared. -/
def specRiskScore (tx : Transaction) : ℚ :=
  let s : ℚ := 0
  let s := if tx.amount > 10000 then s + 0.3 else s
  let s := if tx.amount > 50000 then s + 0.2 else s
  let s := if tx.metadata.recentTxCount.getD 0 > 5 then s + 0.2 else s
  let s := if tx.metadata.toCountry = some "XX" then s + 0.3 else s
  max 0 (min s 1)

/-- The fields of a `FraudDetectionResult` other than the timestamp, for
stating determinism up to the timestamp. -/
def resultCore (r : FraudDetectionResult) :
    String × String × String × String × ℚ × Decision × List String :=
  (r.transactionId, r.fraudDetectorDid, r.riskAnalyzerDid, r.policyId,
   r.riskScore, r.decision, r.reasoning)

/-! Concrete collaborator stubs and inputs used by counterexamples and
witnesses. -/

def stubIdentity (name : String) : AgentIdentity := ⟨"did:example:" ++ name⟩

def resolveStub : String → Except String AgentIdentity :=
  fun n => .ok (stubIdentity n)

def verifyTrue : String → Bool := fun _ => true

def verifyFalse : String → Bool := fun _ => false

def allowStub : String → String → String → DelegationDecision :=
  fun _ _ _ => ⟨true, "", some ⟨"pol-001"⟩⟩

def denyStub : String → String → String → DelegationDecision :=
  fun _ _ _ => ⟨false, "out of scope action", none⟩

def benignTx : Transaction :=
  ⟨"tx_benign", 500, "USD", "acct_a", "acct_b", "t0", ⟨some 3, some "US"⟩⟩

def velocityOnlyTx : Transaction :=
  ⟨"tx_velocity", 500, "USD", "acct_a", "acct_b", "t0", ⟨some 6, some "US"⟩⟩

def blockTx : Transaction :=
  ⟨"tx_block", 60000, "USD", "acct_a", "acct_b", "t0", ⟨some 6, some "XX"⟩⟩

def highSeverityQuery : Query :=
  ⟨"cust_123", "My account was charged twice", "high"⟩

def lowSeverityQuery : Query := ⟨"cust_456", "Store hours", "low"⟩

def fraudEnvDeny : FraudEnv :=
  ⟨resolveStub, verifyTrue, denyStub, "2026-01-01T00:00:00Z"⟩

def fraudEnvBadCred : FraudEnv :=
  ⟨resolveStub, verifyFalse, allowStub, "2026-01-01T00:00:00Z"⟩

def escEnvDeny : EscalationEnv := ⟨resolveStub, verifyTrue, denyStub⟩

def escEnvAllow : EscalationEnv := ⟨resolveStub, verifyTrue, allowStub⟩

/-- A deterministic L1 responder stub answering with confidence 0.9
regardless of the query, for exercising the severity disjunct alone. -/
def l1Conf09 : Query → AgentResponse := fun _ => ⟨"I can help with that!", 0.9⟩

/-! Helper lemmas. -/

theorem usNotXX : ("US" : String) ≠ "XX" := by decide

/-- The velocity test of `generateReasoning` agrees with the defaulted test
of `calculateRiskScore`: `undefined > 5` is `false` in JS, as is `0 > 5`. -/
theorem recentTxCountOver5_eq (o : Option ℚ) :
    recentTxCountOver5 o = decide (o.getD 0 > 5) := by
  cases o with
  | none => simp [recentTxCountOver5]
  | some n => simp [recentTxCountOver5]

theorem calculateRiskScore_benignTx : calculateRiskScore benignTx = 0 := by
  unfold calculateRiskScore
  norm_num [benignTx, usNotXX, min_def]

theorem calculateRiskScore_velocityOnlyTx : calculateRiskScore velocityOnlyTx = 0.2 := by
  unfold calculateRiskScore
  norm_num [velocityOnlyTx, usNotXX, min_def]

theorem calculateRiskScore_blockTx : calculateRiskScore blockTx = 1 := by
  unfold calculateRiskScore
  norm_num [blockTx, min_def]

theorem generateReasoning_velocityOnlyTx :
    generateReasoning velocityOnlyTx (calculateRiskScore velocityOnlyTx) =
      ["High transaction velocity", "Normal transaction pattern"] := by
  rw [calculateRiskScore_velocityOnlyTx]
  unfold generateReasoning
  norm_num [velocityOnlyTx, recentTxCountOver5, usNotXX]

theorem generateReasoning_blockTx :
    generateReasoning blockTx (calculateRiskScore blockTx) =
      ["High transaction amount", "High transaction velocity",
       "High-risk destination country"] := by
  rw [calculateRiskScore_blockTx]
  unfold generateReasoning
  norm_num [blockTx, recentTxCountOver5]

/-! Branch lemmas for the two workflow runners. -/

theorem detectFraud_credFail (env : FraudEnv) (tx : Transaction) (fd ra : AgentIdentity)
    (hfd : env.resolve fraudDetectorName = Except.ok fd)
    (hra : env.resolve riskAnalyzerName = Except.ok ra)
    (hbad : env.verifyAgent fd.did = false ∨ env.verifyAgent ra.did = false) :
    detectFraud env tx =
      (Except.error "Agent credential verification failed",
       [Event.resolveAgent fraudDetectorName, Event.resolveAgent riskAnalyzerName,
        Event.verifyAgent fd.did, Event.verifyAgent ra.did]) := by
  unfold detectFraud
  rw [hfd, hra]
  rcases hbad with h | h <;> simp [h]

theorem detectFraud_denied (env : FraudEnv) (tx : Transaction) (fd ra : AgentIdentity)
    (hfd : env.resolve fraudDetectorName = Except.ok fd)
    (hra : env.resolve riskAnalyzerName = Except.ok ra)
    (hv1 : env.verifyAgent fd.did = true) (hv2 : env.verifyAgent ra.did = true)
    (hdeny : (env.checkDelegation fd.did ra.did "analyze-transaction").allowed = false) :
    detectFraud env tx =
      (Except.error
         ("Delegation denied: " ++ (env.checkDelegation fd.did ra.did "analyze-transaction").reason),
       [Event.resolveAgent fraudDetectorName, Event.resolveAgent riskAnalyzerName,
        Event.verifyAgent fd.did, Event.verifyAgent ra.did,
        Event.delegationCheck fd.did ra.did "analyze-transaction"]) := by
  unfold detectFraud
  rw [hfd, hra]
  simp [hv1, hv2, hdeny]

theorem detectFraud_success (env : FraudEnv) (tx : Transaction) (fd ra : AgentIdentity)
    (p : DelegationPolicy)
    (hfd : env.resolve fraudDetectorName = Except.ok fd)
    (hra : env.resolve riskAnalyzerName = Except.ok ra)
    (hv1 : env.verifyAgent fd.did = true) (hv2 : env.verifyAgent ra.did = true)
    (hallow : (env.checkDelegation fd.did ra.did "analyze-transaction").allowed = true)
    (hpol : (env.checkDelegation fd.did ra.did "analyze-transaction").policy = some p) :
    detectFraud env tx =
      (Except.ok { transactionId := tx.id
                   fraudDetectorDid := fd.did
                   riskAnalyzerDid := ra.did
                   policyId := p.id
                   riskScore := calculateRiskScore tx
                   decision := decisionFor (calculateRiskScore tx)
                   reasoning := generateReasoning tx (calculateRiskScore tx)
                   timestamp := env.now },
       [Event.resolveAgent fraudDetectorName, Event.resolveAgent riskAnalyzerName,
        Event.verifyAgent fd.did, Event.verifyAgent ra.did,
        Event.delegationCheck fd.did ra.did "analyze-transaction"]) := by
  unfold detectFraud
  rw [hfd, hra]
  simp [hv1, hv2, hallow, hpol]

theorem handleCustomerQueryWith_noEscalation (env : EscalationEnv)
    (l1 supervisor : Query → AgentResponse) (q : Query) (cb sa : AgentIdentity)
    (hcb : env.resolve chatbotL1Name = Except.ok cb)
    (hsa : env.resolve supervisorAIName = Except.ok sa)
    (hconf : ¬ (l1 q).confidence < 0.8) (hsev : q.severity ≠ "high") :
    handleCustomerQueryWith env l1 supervisor q =
      (Except.ok ⟨"resolved_l1", l1 q, none⟩,
       [Event.resolveAgent chatbotL1Name, Event.resolveAgent supervisorAIName]) := by
  unfold handleCustomerQueryWith
  rw [hcb, hsa]
  simp [hconf, hsev]

theorem handleCustomerQueryWith_denied (env : EscalationEnv)
    (l1 supervisor : Query → AgentResponse) (q : Query) (cb sa : AgentIdentity)
    (hcb : env.resolve chatbotL1Name = Except.ok cb)
    (hsa : env.resolve supervisorAIName = Except.ok sa)
    (hesc : (l1 q).confidence < 0.8 ∨ q.severity = "high")
    (hdeny : (env.checkDelegation cb.did sa.did "escalate").allowed = false) :
    handleCustomerQueryWith env l1 supervisor q =
      (Except.ok ⟨"resolved_l1", l1 q, none⟩,
       [Event.resolveAgent chatbotL1Name, Event.resolveAgent supervisorAIName,
        Event.delegationCheck cb.did sa.did "escalate"]) := by
  unfold handleCustomerQueryWith
  rw [hcb, hsa]
  dsimp only
  rw [if_pos hesc]
  simp [hdeny]

theorem handleCustomerQueryWith_escalated (env : EscalationEnv)
    (l1 supervisor : Query → AgentResponse) (q : Query) (cb sa : AgentIdentity)
    (p : DelegationPolicy)
    (hcb : env.resolve chatbotL1Name = Except.ok cb)
    (hsa : env.resolve supervisorAIName = Except.ok sa)
    (hesc : (l1 q).confidence < 0.8 ∨ q.severity = "high")
    (hallow : (env.checkDelegation cb.did sa.did "escalate").allowed = true)
    (hpol : (env.checkDelegation cb.did sa.did "escalate").policy = some p) :
    handleCustomerQueryWith env l1 supervisor q =
      (Except.ok ⟨"escalated", supervisor q, some p.id⟩,
       [Event.resolveAgent chatbotL1Name, Event.resolveAgent supervisorAIName,
        Event.delegationCheck cb.did sa.did "escalate"]) := by
  unfold handleCustomerQueryWith
  rw [hcb, hsa]
  dsimp only
  rw [if_pos hesc]
  simp [hallow, hpol]


theorem handleCustomerQueryWith_escalation_trace (env : EscalationEnv)
    (l1 supervisor : Query → AgentResponse) (q : Query) (cb sa : AgentIdentity)
    (hcb : env.resolve chatbotL1Name = Except.ok cb)
    (hsa : env.resolve supervisorAIName = Except.ok sa)
    (hesc : (l1 q).confidence < 0.8 ∨ q.severity = "high") :
    (handleCustomerQueryWith env l1 supervisor q).2 =
      [Event.resolveAgent chatbotL1Name, Event.resolveAgent supervisorAIName,
       Event.delegationCheck cb.did sa.did "escalate"] := by
  unfold handleCustomerQueryWith
  rw [hcb, hsa]
  dsimp only
  rw [if_pos hesc]
  by_cases hd : (env.checkDelegation cb.did sa.did "escalate").allowed = true
  · cases hp : (env.checkDelegation cb.did sa.did "escalate").policy <;> simp [hd, hp]
  · simp [hd]

/-! Claim theorems. -/

/-- C1, counterexample: the claim fails on the escalation workflow.  With a
delegation checker that denies the escalation, `handleCustomerQuery` on a
high-severity query still returns a result, and that result's status is
"resolved_l1" — the very status returned on genuinely successful L1
resolution (third conjunct) — so the status does not encode the denial. -/
theorem C1_counterexample :
    (escEnvDeny.checkDelegation (stubIdentity chatbotL1Name).did
        (stubIdentity supervisorAIName).did "escalate").allowed = false ∧
    (handleCustomerQuery escEnvDeny highSeverityQuery).1 =
      Except.ok ⟨"resolved_l1", simulateL1Response highSeverityQuery, none⟩ ∧
    (handleCustomerQuery escEnvAllow lowSeverityQuery).1 =
      Except.ok ⟨"resolved_l1", simulateL1Response lowSeverityQuery, none⟩ := by
  refine ⟨rfl, ?_, ?_⟩
  · rw [handleCustomerQuery, handleCustomerQueryWith_denied escEnvDeny simulateL1Response
      simulateSupervisorResponse highSeverityQuery (stubIdentity chatbotL1Name)
      (stubIdentity supervisorAIName) rfl rfl (Or.inr rfl) rfl]
  · rw [handleCustomerQuery, handleCustomerQueryWith_noEscalation escEnvAllow
      simulateL1Response simulateSupervisorResponse lowSeverityQuery
      (stubIdentity chatbotL1Name) (stubIdentity supervisorAIName) rfl rfl
      (by norm_num [simulateL1Response, lowSeverityQuery,
        show ("low" : String) ≠ "high" from by decide])
      (by decide)]

/-- C1, amended: in the fraud-detection workflow a denied delegation means no
WorkflowResult is returned (the run fails with the delegation error); in the
escalation workflow, when the escalation condition holds and the delegation is
denied, `handleCustomerQuery` returns a result whose status is "resolved_l1" —
the same status as successful L1 resolution — rather than one encoding the
denial. -/
theorem C1_denied_delegation_outcomes (envF : FraudEnv) (tx : Transaction)
    (fd ra : AgentIdentity) (envE : EscalationEnv) (q : Query) (cb sa : AgentIdentity)
    (hfd : envF.resolve fraudDetectorName = Except.ok fd)
    (hra : envF.resolve riskAnalyzerName = Except.ok ra)
    (hv1 : envF.verifyAgent fd.did = true) (hv2 : envF.verifyAgent ra.did = true)
    (hdenyF : (envF.checkDelegation fd.did ra.did "analyze-transaction").allowed = false)
    (hcb : envE.resolve chatbotL1Name = Except.ok cb)
    (hsa : envE.resolve supervisorAIName = Except.ok sa)
    (hsev : q.severity = "high")
    (hdenyE : (envE.checkDelegation cb.did sa.did "escalate").allowed = false) :
    (detectFraud envF tx).1 =
      Except.error ("Delegation denied: " ++
        (envF.checkDelegation fd.did ra.did "analyze-transaction").reason) ∧
    (handleCustomerQuery envE q).1 =
      Except.ok ⟨"resolved_l1", simulateL1Response q, none⟩ := by
  constructor
  · rw [detectFraud_denied envF tx fd ra hfd hra hv1 hv2 hdenyF]
  · rw [handleCustomerQuery, handleCustomerQueryWith_denied envE simulateL1Response
      simulateSupervisorResponse q cb sa hcb hsa (Or.inr hsev) hdenyE]

/-- C1, witness: the amended claim instantiated at the concrete stub
environments. -/
theorem C1_witness :
    (detectFraud fraudEnvDeny benignTx).1 =
      Except.error ("Delegation denied: " ++
        (fraudEnvDeny.checkDelegation (stubIdentity fraudDetectorName).did
          (stubIdentity riskAnalyzerName).did "analyze-transaction").reason) ∧
    (handleCustomerQuery escEnvDeny highSeverityQuery).1 =
      Except.ok ⟨"resolved_l1", simulateL1Response highSeverityQuery, none⟩ :=
  C1_denied_delegation_outcomes fraudEnvDeny benignTx (stubIdentity fraudDetectorName)
    (stubIdentity riskAnalyzerName) escEnvDeny highSeverityQuery
    (stubIdentity chatbotL1Name) (stubIdentity supervisorAIName)
    rfl rfl rfl rfl rfl rfl rfl rfl rfl

/-- C2, counterexample: the claim fails as stated.  A velocity-only
transaction (amount 500, recent count 6, non-high-risk country) has
(unclamped = clamped) fraud score 0.2 < 0.3, yet its reasoning list contains
the triggered "High transaction velocity" string in addition to — not instead
of — the "Normal transaction pattern" note. -/
theorem C2_counterexample :
    calculateRiskScore velocityOnlyTx < 0.3 ∧
    "High transaction velocity" ∈
      generateReasoning velocityOnlyTx (calculateRiskScore velocityOnlyTx) ∧
    "Normal transaction pattern" ∈
      generateReasoning velocityOnlyTx (calculateRiskScore velocityOnlyTx) := by
  refine ⟨?_, ?_, ?_⟩
  · rw [calculateRiskScore_velocityOnlyTx]
    norm_num
  · rw [generateReasoning_velocityOnlyTx]
    simp
  · rw [generateReasoning_velocityOnlyTx]
    simp

/-- C2, amended: when the fraud score is below 0.3 (the clamp is the identity
below 1, so clamped and unclamped agree there) the "Normal transaction
pattern" note is appended AFTER any triggered condition strings, in addition
to them; and for the concrete input amount = 60,000, recent count 6,
high-risk country, the reasoning list is exactly the three triggered strings
with no note. -/
theorem C2_note_appended_not_exclusive (tx : Transaction)
    (h : calculateRiskScore tx < 0.3) :
    (∃ pre, generateReasoning tx (calculateRiskScore tx) =
       pre ++ ["Normal transaction pattern"]) ∧
    generateReasoning blockTx (calculateRiskScore blockTx) =
      ["High transaction amount", "High transaction velocity",
       "High-risk destination country"] := by
  constructor
  · unfold generateReasoning
    dsimp only
    rw [if_pos h]
    exact ⟨_, rfl⟩
  · exact generateReasoning_blockTx

/-- C2, witness: the amended claim instantiated at the velocity-only
transaction, whose score 0.2 is below 0.3. -/
theorem C2_witness :
    (∃ pre, generateReasoning velocityOnlyTx (calculateRiskScore velocityOnlyTx) =
       pre ++ ["Normal transaction pattern"]) ∧
    generateReasoning blockTx (calculateRiskScore blockTx) =
      ["High transaction amount", "High transaction velocity",
       "High-risk destination country"] :=
  C2_note_appended_not_exclusive velocityOnlyTx
    (by rw [calculateRiskScore_velocityOnlyTx]; norm_num)

/-- C3: the implemented fraud score coincides with the spec's reference
definition (additive conditions then clamp to [0, 1]) on every transaction,
and in particular is 0 whenever amount ≤ 10,000, recent-transaction count
≤ 5 and the destination country is not the high-risk sentinel. -/
theorem C3_riskScore_refines_spec (tx : Transaction) :
    calculateRiskScore tx = specRiskScore tx ∧
    (tx.amount ≤ 10000 → tx.metadata.recentTxCount.getD 0 ≤ 5 →
      tx.metadata.toCountry ≠ some "XX" → calculateRiskScore tx = 0) := by
  constructor
  · unfold calculateRiskScore specRiskScore
    by_cases h1 : (10000 : ℚ) < tx.amount <;> by_cases h2 : (50000 : ℚ) < tx.amount <;>
    by_cases h3 : (5 : ℚ) < tx.metadata.recentTxCount.getD 0 <;>
    by_cases h4 : tx.metadata.toCountry = some "XX" <;>
    simp only [gt_iff_lt, h1, h2, h3, h4, if_true, if_false, ite_true, ite_false] <;>
    norm_num [min_def, max_def]
  · intro hAmt hVel hCty
    have h1 : ¬ (10000 : ℚ) < tx.amount := not_lt.mpr hAmt
    have h2 : ¬ (50000 : ℚ) < tx.amount := not_lt.mpr (hAmt.trans (by norm_num))
    have h3 : ¬ (5 : ℚ) < tx.metadata.recentTxCount.getD 0 := not_lt.mpr hVel
    unfold calculateRiskScore
    simp only [gt_iff_lt, h1, h2, h3, hCty, if_true, if_false, ite_true, ite_false]
    norm_num [min_def]

/-- C4: the decision mapping uses strict greater-than at both boundaries:
BLOCK above 0.8, REVIEW above 0.5, ALLOW otherwise, with exactly 0.5 giving
ALLOW and exactly 0.8 giving REVIEW. -/
theorem C4_decision_strict_boundaries (s : ℚ) :
    (s > 0.8 → decisionFor s = Decision.BLOCK) ∧
    (s ≤ 0.8 → s > 0.5 → decisionFor s = Decision.REVIEW) ∧
    (s ≤ 0.5 → decisionFor s = Decision.ALLOW) ∧
    decisionFor 0.5 = Decision.ALLOW ∧ decisionFor 0.8 = Decision.REVIEW := by
  refine ⟨?_, ?_, ?_, ?_, ?_⟩
  · intro h
    unfold decisionFor
    rw [if_pos h]
  · intro h1 h2
    unfold decisionFor
    rw [if_neg (not_lt.mpr h1), if_pos h2]
  · intro h
    unfold decisionFor
    rw [if_neg (not_lt.mpr (h.trans (by norm_num))), if_neg (not_lt.mpr h)]
  · unfold decisionFor
    norm_num
  · unfold decisionFor
    norm_num

/-- C5: when either credential verification returns false (after both
resolutions succeed), `detectFraud` fails with exactly the credential error
message and its collaborator trace contains no delegation check at all:
verification is a hard gate that strictly precedes the delegation check. -/
theorem C5_credential_gate (env : FraudEnv) (tx : Transaction) (fd ra : AgentIdentity)
    (hfd : env.resolve fraudDetectorName = Except.ok fd)
    (hra : env.resolve riskAnalyzerName = Except.ok ra)
    (hbad : env.verifyAgent fd.did = false ∨ env.verifyAgent ra.did = false) :
    (detectFraud env tx).1 = Except.error "Agent credential verification failed" ∧
    ∀ f t a, Event.delegationCheck f t a ∉ (detectFraud env tx).2 := by
  rw [detectFraud_credFail env tx fd ra hfd hra hbad]
  refine ⟨rfl, ?_⟩
  intro f t a
  simp

/-- C5, witness: the credential gate at a concrete environment whose verifier
answers false. -/
theorem C5_witness :
    (detectFraud fraudEnvBadCred benignTx).1 =
      Except.error "Agent credential verification failed" :=
  (C5_credential_gate fraudEnvBadCred benignTx (stubIdentity fraudDetectorName)
    (stubIdentity riskAnalyzerName) rfl rfl (Or.inl rfl)).1

/-- C6: when the delegation checker denies with reason r, `detectFraud` fails
with a message that is the fixed prefix "Delegation denied: " followed by r —
so the message contains the denial reason verbatim and unaltered. -/
theorem C6_denial_reason_verbatim (env : FraudEnv) (tx : Transaction) (fd ra : AgentIdentity)
    (hfd : env.resolve fraudDetectorName = Except.ok fd)
    (hra : env.resolve riskAnalyzerName = Except.ok ra)
    (hv1 : env.verifyAgent fd.did = true) (hv2 : env.verifyAgent ra.did = true)
    (hdeny : (env.checkDelegation fd.did ra.did "analyze-transaction").allowed = false) :
    (detectFraud env tx).1 =
      Except.error ("Delegation denied: " ++
        (env.checkDelegation fd.did ra.did "analyze-transaction").reason) ∧
    ∃ pre, "Delegation denied: " ++
        (env.checkDelegation fd.did ra.did "analyze-transaction").reason =
      pre ++ (env.checkDelegation fd.did ra.did "analyze-transaction").reason := by
  rw [detectFraud_denied env tx fd ra hfd hra hv1 hv2 hdeny]
  exact ⟨rfl, "Delegation denied: ", rfl⟩

/-- C6, witness: the denial message at a concrete denying environment. -/
theorem C6_witness :
    (detectFraud fraudEnvDeny benignTx).1 =
      Except.error ("Delegation denied: " ++
        (fraudEnvDeny.checkDelegation (stubIdentity fraudDetectorName).did
          (stubIdentity riskAnalyzerName).did "analyze-transaction").reason) :=
  (C6_denial_reason_verbatim fraudEnvDeny benignTx (stubIdentity fraudDetectorName)
    (stubIdentity riskAnalyzerName) rfl rfl rfl rfl rfl).1

/-- C7: the escalation predicate is the disjunction of the two conditions:
severity "high" alone forces a delegation check (for any L1 confidence,
including 0.9), confidence < 0.8 alone forces a delegation check, and only
when confidence ≥ 0.8 and severity ≠ "high" does the workflow return the
resolved-at-source status with a trace containing no delegation check. -/
theorem C7_escalation_disjunction (env : EscalationEnv) (l1 sup : Query → AgentResponse)
    (q : Query) (cb sa : AgentIdentity)
    (hcb : env.resolve chatbotL1Name = Except.ok cb)
    (hsa : env.resolve supervisorAIName = Except.ok sa) :
    (q.severity = "high" →
      Event.delegationCheck cb.did sa.did "escalate" ∈
        (handleCustomerQueryWith env l1 sup q).2) ∧
    ((l1 q).confidence < 0.8 →
      Event.delegationCheck cb.did sa.did "escalate" ∈
        (handleCustomerQueryWith env l1 sup q).2) ∧
    (0.8 ≤ (l1 q).confidence → q.severity ≠ "high" →
      handleCustomerQueryWith env l1 sup q =
        (Except.ok ⟨"resolved_l1", l1 q, none⟩,
         [Event.resolveAgent chatbotL1Name, Event.resolveAgent supervisorAIName])) := by
  refine ⟨?_, ?_, ?_⟩
  · intro hsev
    rw [handleCustomerQueryWith_escalation_trace env l1 sup q cb sa hcb hsa (Or.inr hsev)]
    simp
  · intro hconf
    rw [handleCustomerQueryWith_escalation_trace env l1 sup q cb sa hcb hsa (Or.inl hconf)]
    simp
  · intro hconf hsev
    exact handleCustomerQueryWith_noEscalation env l1 sup q cb sa hcb hsa
      (not_lt.mpr hconf) hsev

/-- C7, witness: a high-severity query with a responder of confidence 0.9 is
still escalated (the delegation check appears in the trace). -/
theorem C7_witness :
    Event.delegationCheck (stubIdentity chatbotL1Name).did
        (stubIdentity supervisorAIName).did "escalate" ∈
      (handleCustomerQueryWith escEnvAllow l1Conf09 simulateSupervisorResponse
        highSeverityQuery).2 :=
  (C7_escalation_disjunction escEnvAllow l1Conf09 simulateSupervisorResponse
    highSeverityQuery (stubIdentity chatbotL1Name) (stubIdentity supervisorAIName)
    rfl rfl).1 rfl

/-- C8: with the same deterministic collaborators, two runs of `detectFraud`
on the same transaction differing only in the clock agree on every result
field except the timestamp, and produce identical collaborator traces. -/
theorem C8_deterministic_up_to_timestamp (res : String → Except String AgentIdentity)
    (ver : String → Bool) (chk : String → String → String → DelegationDecision)
    (now1 now2 : String) (tx : Transaction) :
    Except.map resultCore (detectFraud ⟨res, ver, chk, now1⟩ tx).1 =
      Except.map resultCore (detectFraud ⟨res, ver, chk, now2⟩ tx).1 ∧
    (detectFraud ⟨res, ver, chk, now1⟩ tx).2 = (detectFraud ⟨res, ver, chk, now2⟩ tx).2 := by
  unfold detectFraud
  dsimp only
  rcases hfd : res fraudDetectorName with e | fd
  · exact ⟨rfl, rfl⟩
  · rcases hra : res riskAnalyzerName with e | ra
    · exact ⟨rfl, rfl⟩
    · by_cases hb : (!ver fd.did || !ver ra.did) = true
      · simp [hb]
      · by_cases hd : (chk fd.did ra.did "analyze-transaction").allowed = true
        · rcases hp : (chk fd.did ra.did "analyze-transaction").policy with _ | p <;>
            simp [hb, hd, hp, resultCore, Except.map]
        · simp [hb, Bool.not_eq_true _ ▸ hd]

/-- C9: `handleCustomerQuery` never calls the credential verifier: its outcome
and trace are unchanged under any substitution of the verifier collaborator,
and no verification event ever appears in its trace. -/
theorem C9_verifier_never_invoked (res : String → Except String AgentIdentity)
    (v1 v2 : String → Bool) (chk : String → String → String → DelegationDecision)
    (q : Query) :
    handleCustomerQuery ⟨res, v1, chk⟩ q = handleCustomerQuery ⟨res, v2, chk⟩ q ∧
    ∀ d, Event.verifyAgent d ∉ (handleCustomerQuery ⟨res, v1, chk⟩ q).2 := by
  constructor
  · rfl
  · intro d
    unfold handleCustomerQuery handleCustomerQueryWith
    dsimp only
    rcases hcb : res chatbotL1Name with e | cb
    · simp
    · rcases hsa : res supervisorAIName with e | sa
      · simp
      · dsimp only
        by_cases hesc : (simulateL1Response q).confidence < 0.8 ∨ q.severity = "high"
        · rw [if_pos hesc]
          by_cases hd : (chk cb.did sa.did "escalate").allowed = true
          · cases hp : (chk cb.did sa.did "escalate").policy <;> simp [hd, hp]
          · simp [hd]
        · rw [if_neg hesc]
          simp

/-- C9, witness: swapping an all-true verifier for an all-false one leaves the
escalation workflow's answer unchanged on a concrete query. -/
theorem C9_witness :
    handleCustomerQuery ⟨resolveStub, verifyTrue, allowStub⟩ lowSeverityQuery =
      handleCustomerQuery ⟨resolveStub, verifyFalse, allowStub⟩ lowSeverityQuery :=
  (C9_verifier_never_invoked resolveStub verifyTrue verifyFalse allowStub lowSeverityQuery).1

/-- C10: the reasoning list is never empty: when the score is at least 0.3
one of the three condition strings is present, and when it is below 0.3 the
"Normal transaction pattern" note is present. -/
theorem C10_reasoning_nonempty (tx : Transaction) :
    (calculateRiskScore tx ≥ 0.3 →
      "High transaction amount" ∈ generateReasoning tx (calculateRiskScore tx) ∨
      "High transaction velocity" ∈ generateReasoning tx (calculateRiskScore tx) ∨
      "High-risk destination country" ∈ generateReasoning tx (calculateRiskScore tx)) ∧
    (calculateRiskScore tx < 0.3 →
      "Normal transaction pattern" ∈ generateReasoning tx (calculateRiskScore tx)) ∧
    generateReasoning tx (calculateRiskScore tx) ≠ [] := by
  unfold calculateRiskScore generateReasoning
  rw [recentTxCountOver5_eq]
  by_cases h1 : (10000 : ℚ) < tx.amount <;> by_cases h2 : (50000 : ℚ) < tx.amount <;>
  by_cases h3 : (5 : ℚ) < tx.metadata.recentTxCount.getD 0 <;>
  by_cases h4 : tx.metadata.toCountry = some "XX" <;>
  simp only [gt_iff_lt, h1, h2, h3, h4, if_true, if_false,
    ite_true, ite_false, decide_eq_true_eq] <;>
  norm_num [min_def] <;> simp

end MCPFExamples
